import Mathlib

/-!
# Verification of the `pp` flag-style script interpreter (`src/python.py`)

Shallow embedding of the interpreter's data model and evaluator, with the
claims of the specification settled as theorems.

Modelling conventions (each is an explicit, claim-irrelevant abstraction of
the Python source, noted again at its use site):

* Python `int` values are arbitrary-precision integers (`ℤ`).  Python
  `float` values are IEEE binary64: every float operation (and every
  int-to-float conversion) rounds its exact rational result to 53
  significant bits, round-to-nearest ties-to-even (`roundB64`).  The
  exponent is unbounded — overflow to infinity and subnormal flushing are
  not modelled; no claim's program reaches those magnitudes.  The exact
  rational arithmetic feeding the rounding is written through `mkRat`
  (`ratAdd`/`ratSub`/`ratMul`/`ratDiv`) so that it evaluates inside the
  kernel; the `..._eq_...` theorems below show these are the field
  operations of `ℚ`.
* Python object identity is modelled with explicit heaps: scope dictionaries
  live in `State.scopeHeap` (the variable stack `self.variables` holds
  references), list objects backing arrays live in `State.arrHeap`, and the
  `local_functions` dictionaries live in `State.localFnHeap`.  In-place
  mutation of a `Variable` object (`var.value = ...`) is an update of the
  innermost scope containing its name: the interpreter inserts every fresh
  `Variable` object into exactly one scope dictionary.
* Statements are modelled post-parsing and post-block-resolution (`Stmt`):
  the source re-tokenizes the joined block text each iteration, which is
  behaviourally identical for the deterministic line grammar (spec §9 makes
  the same observation).  `FILE --read`, `FILE --save` and `IMP` bind to external
  file collaborators and no claim touches them, so they are not modelled.
* `InterpreterError` is `Exc.interp (line : Option Nat) msg`: `line = none`
  until `interpret` wraps the message with its `Line {i+1}:` prefix, at which
  point the statement's 1-based index in the current statement list is
  recorded.  (The source counts raw lines of the flat text, so the numeric
  value can differ for multi-line blocks; only the presence or absence of a
  tag is claim-relevant.)  `FunctionReturn` is `Exc.funcRet`; any other
  Python-level exception (`TypeError`, `UnboundLocalError`, `IndexError`,
  `ValueError` escaping an `int(...)` without a handler, ...) is `Exc.fault`.
* Error-message strings follow the source, except that the single-quote
  punctuation around interpolated names is dropped, and messages carrying
  Vietnamese diacritics are kept verbatim.
* The diagnostic `print(...)` status lines have no effect on interpreter
  state and are not modelled, except for `PRI --print`, whose output is the
  observable `State.trace` (the printer is a side-effecting sink, spec §6).
-/

namespace PP

/-- A Python number: `int` or `float` (floats idealized as exact rationals). -/
inductive PyNum where
  | int (n : ℤ)
  | float (q : ℚ)
deriving DecidableEq

/-- The numeric value (Python compares and mixes `int`/`float` numerically). -/
def PyNum.toRat : PyNum → ℚ
  | .int n => (n : ℚ)
  | .float q => q

/-- Whether the Python number is a `float`. -/
def PyNum.isFloat : PyNum → Bool
  | .int _ => false
  | .float _ => true

/-- Exact addition of rationals, written through `mkRat` so that it
evaluates inside the kernel (`Rat.add` is `@[irreducible]`);
`ratAdd_eq_add` below shows it is the addition of `ℚ`. -/
def ratAdd (a b : ℚ) : ℚ :=
  mkRat (a.num * (b.den : ℤ) + b.num * (a.den : ℤ)) (a.den * b.den)

/-- Exact subtraction of rationals through `mkRat`; `ratSub_eq_sub` below
shows it is the subtraction of `ℚ`. -/
def ratSub (a b : ℚ) : ℚ :=
  mkRat (a.num * (b.den : ℤ) - b.num * (a.den : ℤ)) (a.den * b.den)

/-- Exact multiplication of rationals through `mkRat`; `ratMul_eq_mul`
below shows it is the multiplication of `ℚ`. -/
def ratMul (a b : ℚ) : ℚ :=
  mkRat (a.num * b.num) (a.den * b.den)

/-- Exact division of rationals, written through `mkRat` so that it
evaluates inside the kernel (`Rat.div` is `@[irreducible]`);
`ratDiv_eq_div` below shows it is the field division of `ℚ`. -/
def ratDiv (a b : ℚ) : ℚ :=
  let n := a.num * (b.den : ℤ)
  let d := a.den * b.num.natAbs
  if 0 ≤ b.num then mkRat n d else mkRat (-n) d

/-- Bit length of a natural number (first argument is fuel, `n` itself
suffices: the recursion halves `n` each step). -/
def bitsAux : Nat → Nat → Nat
  | 0, _ => 0
  | fuel + 1, n => if n ≤ 1 then n else bitsAux fuel (n / 2) + 1

/-- Bit length: `2 ^ (natBits n - 1) ≤ n < 2 ^ natBits n` for `n ≥ 1`. -/
def natBits (n : Nat) : Nat :=
  bitsAux n n

/-- Whether `a / b ≥ 2 ^ L` for positive naturals `a`, `b`. -/
def qGePow2 (a b : Nat) (L : ℤ) : Bool :=
  if 0 ≤ L then b * 2 ^ L.toNat ≤ a else b ≤ a * 2 ^ (-L).toNat

/-- IEEE binary64 rounding of an exact rational: round to 53 significant
bits, to nearest, ties to even (the unbounded-exponent model: no overflow
to infinity, no subnormal flushing; no claim's program reaches those
magnitudes).  The scaled significand `A / B` lies in `[2^52, 2^53)`; a
carry to `2^53` needs no renormalization because only the value is kept. -/
def roundB64 (q : ℚ) : ℚ :=
  if q = 0 then 0
  else
    let neg := q.num < 0
    let a := q.num.natAbs
    let b := q.den
    let L : ℤ := (natBits a : ℤ) - (natBits b : ℤ)
    let exp : ℤ := if qGePow2 a b L then L else L - 1
    let shift : ℤ := exp - 52
    let A := if 0 ≤ shift then a else a * 2 ^ (-shift).toNat
    let B := if 0 ≤ shift then b * 2 ^ shift.toNat else b
    let m := A / B
    let r := A % B
    let m2 :=
      if 2 * r < B then m
      else if B < 2 * r then m + 1
      else if m % 2 = 0 then m else m + 1
    let mz : ℤ := if neg then -(m2 : ℤ) else (m2 : ℤ)
    if 0 ≤ shift then mkRat (mz * 2 ^ shift.toNat) 1 else mkRat mz (2 ^ (-shift).toNat)

/-- The binary64 value of an operand in a float operation: an `int` is
converted to float (rounding, as CPython does before mixed arithmetic; the
`OverflowError` for astronomically large ints is not modelled), a `float`
is used as is. -/
def pyFloat (p : PyNum) : ℚ :=
  match p with
  | .int n => roundB64 (n : ℚ)
  | .float q => q

/-- Python `+` on numbers: `int + int` is exact; any float operand makes
it a binary64 addition (convert, add exactly, round). -/
def pyAdd (a b : PyNum) : PyNum :=
  match a, b with
  | .int x, .int y => .int (x + y)
  | _, _ => .float (roundB64 (ratAdd (pyFloat a) (pyFloat b)))

/-- Python `-` on numbers. -/
def pySub (a b : PyNum) : PyNum :=
  match a, b with
  | .int x, .int y => .int (x - y)
  | _, _ => .float (roundB64 (ratSub (pyFloat a) (pyFloat b)))

/-- Python `*` on numbers. -/
def pyMul (a b : PyNum) : PyNum :=
  match a, b with
  | .int x, .int y => .int (x * y)
  | _, _ => .float (roundB64 (ratMul (pyFloat a) (pyFloat b)))

/-- Python `/` (true division): always a `float`.  `int / int` is the
correctly rounded exact quotient (as `int.__truediv__`); with a float
operand, convert then divide and round. -/
def pyDiv (a b : PyNum) : PyNum :=
  match a, b with
  | .int x, .int y => .float (roundB64 (ratDiv (x : ℚ) (y : ℚ)))
  | _, _ => .float (roundB64 (ratDiv (pyFloat a) (pyFloat b)))

/-- Truncation toward zero, as Python `int(...)` on a number. -/
def truncRat (q : ℚ) : ℤ :=
  if 0 ≤ q.num then ((q.num.toNat / q.den : Nat) : ℤ)
  else -(((((-q.num).toNat) / q.den : Nat)) : ℤ)

/-- Python `int(...)` applied to a number. -/
def PyNum.toIntTrunc : PyNum → ℤ
  | .int n => n
  | .float q => truncRat q

/-- A runtime value: number, text, reference to a list object backing an
array (Python lists are shared by reference), or Python `None`. -/
inductive Value where
  | num (n : PyNum)
  | str (s : String)
  | arr (ref : Nat)
  | pynone
deriving DecidableEq

/-- `Variable` from the source: type tag, name, value.  The constructor
lowercases the type (`self.type = var_type.lower()`); use `mkVariable`. -/
structure Variable where
  type : String
  name : String
  value : Value
deriving DecidableEq

/-- ASCII lowercasing of one character (Python `str.lower` on the type
tags, which are `\w+` words). -/
def lowerChar (c : Char) : Char :=
  if 65 ≤ c.toNat ∧ c.toNat ≤ 90 then Char.ofNat (c.toNat + 32) else c

/-- `str.lower()`. -/
def strLower (s : String) : String :=
  ⟨s.data.map lowerChar⟩

/-- `Variable.__init__`: stores the lowercased type tag. -/
def mkVariable (t n : String) (v : Value) : Variable :=
  ⟨strLower t, n, v⟩

/-- One scope dictionary (`name -> Variable`); association list keyed by
name, names unique within one scope. -/
abbrev VarScope := List (String × Variable)

/-- Dictionary lookup in one scope. -/
def scopeGet (sc : VarScope) (n : String) : Option Variable :=
  sc.lookup n

/-- Dictionary insert/overwrite in one scope. -/
def scopeSet (sc : VarScope) (n : String) (v : Variable) : VarScope :=
  if (sc.lookup n).isSome then
    sc.map (fun p => if p.1 = n then (n, v) else p)
  else
    sc ++ [(n, v)]

/-- In-place mutation `var.value = x` of the variable named `n` in a scope. -/
def scopeSetValue (sc : VarScope) (n : String) (v : Value) : VarScope :=
  sc.map (fun p => if p.1 = n then (p.1, { p.2 with value := v }) else p)

/-- Dictionary `del` in one scope. -/
def scopeErase (sc : VarScope) (n : String) : VarScope :=
  sc.filter (fun p => p.1 ≠ n)

/-- The two comparison-operator groups accepted by the condition evaluator
(`>,<,>=,<=,==,!=`). -/
inductive CmpOp where
  | gt | lt | ge | le | eq | ne
deriving DecidableEq

/-- A condition as the restricted evaluator understands it: two tokens and
one comparison operator (spec §4.3/§9: a single comparison; combining
comparisons is undefined and not modelled). -/
structure Cond where
  lhs : String
  op : CmpOp
  rhs : String
deriving DecidableEq

/-- A parsed, block-resolved statement (one interpreter line; compound
statements carry the bodies the block scan delimits for them). -/
inductive Stmt where
  | varDecl (type name : String) (set : Option String)
  | sum (inputs : List String) (output : String)
  | subtract (inputs : List String) (output : String)
  | multiply (inputs : List String) (output : String)
  | divide (inputs : List String) (output : String)
  | forLoop (var : Option String) (startS stopS stepS : String) (body : List Stmt)
  | ifStmt (cond : Cond) (body elseBody : List Stmt)
  | whileStmt (cond : Cond) (body : List Stmt)
  | defCreate (name : String) (params : List String) (body : List Stmt)
  | defCall (name : String) (inputs : List String) (save : String)
  | ret (var : String)
  | memRelease (name : String)
  | priPrint (var : String)
  | arrCreate (name : String) (maxSize : Nat)
  | arrSetData (name dataVar : String) (pos : Nat)
  | arrGetData (name : String) (index : Nat) (save : String)
  | load (cdName : String) (cdInputs cdOutputs : List (String × String))
      (cdLib cdCode : List Stmt) (inputs saves : List String)

/-- `Function` from the source: name, ordered parameters, body, origin. -/
structure Function where
  name : String
  parameters : List String
  code : List Stmt
  source : String

/-- A function table (`self.functions` / a `local_functions` dict). -/
abbrev FnTable := List (String × Function)

/-- Table insert/overwrite. -/
def tblSet (t : FnTable) (n : String) (f : Function) : FnTable :=
  if (t.lookup n).isSome then
    t.map (fun p => if p.1 = n then (n, f) else p)
  else
    t ++ [(n, f)]

/-- `ClassDefinition` as `execute_load` consumes it after
`parse_class_definition` (which always leaves `functions = {}`). -/
structure ClassDef where
  name : String
  inputs : List (String × String)
  outputs : List (String × String)
  code : List Stmt
  libCode : List Stmt

/-- The exception channel.  `interp` is `InterpreterError` (with the
`Line {i+1}:` tag recorded in `line` once `interpret` wraps it); `funcRet`
is `FunctionReturn`; `fault` is any other Python exception escaping the
interpreter's own handlers. -/
inductive Exc where
  | interp (line : Option Nat) (msg : String)
  | funcRet (v : Value)
  | fault (msg : String)
deriving DecidableEq

/-- The full interpreter state.  `scopeHeap` holds every scope dictionary
ever allocated (its index is the dictionary's identity); `stack` is
`self.variables`, a stack of references, innermost last; `arrHeap` holds the
list objects backing arrays; `functions` is the global table; `localFnHeap`
holds the `local_functions` dictionaries; `trace` is the `PRI --print`
output. -/
structure State where
  scopeHeap : List VarScope
  stack : List Nat
  arrHeap : List (List Value)
  functions : FnTable
  localFnHeap : List FnTable
  trace : List (String × Value)

/-- `get_variable` over an explicit scope list: walk `reversed(scopes)`
(innermost first), first match wins. -/
def findVarIn (heap : List VarScope) : List Nat → String → Option Variable
  | [], _ => none
  | r :: rs, n =>
    match scopeGet (heap.getD r []) n with
    | some v => some v
    | none => findVarIn heap rs n

/-- `get_variable(name, scopes)`: `scopes` given innermost-last. -/
def State.getVarRefs (st : State) (refs : List Nat) (n : String) : Option Variable :=
  findVarIn st.scopeHeap refs.reverse n

/-- `get_variable(name)` over the live stack. -/
def State.getVar (st : State) (n : String) : Option Variable :=
  st.getVarRefs st.stack n

/-- In-place mutation of the `Variable` object `get_variable(n)` returns:
update the innermost scope containing `n`. -/
def setVarIn (heap : List VarScope) : List Nat → String → Value → Option (List VarScope)
  | [], _, _ => none
  | r :: rs, n, v =>
    if (scopeGet (heap.getD r []) n).isSome then
      some (heap.set r (scopeSetValue (heap.getD r []) n v))
    else
      setVarIn heap rs n v

/-- Mutate the value of the variable `n` as resolved over the live stack
(`none` when no scope holds it). -/
def State.setVarValue (st : State) (n : String) (v : Value) : Option State :=
  (setVarIn st.scopeHeap st.stack.reverse n v).map
    (fun h => { st with scopeHeap := h })

/-- `set_variable`: insert into the current (top) scope,
`self.variables[-1][var.name] = var`; `IndexError` on an empty stack. -/
def State.setVariable (st : State) (v : Variable) : Except Exc State :=
  match st.stack.getLast? with
  | none => .error (.fault "IndexError: list index out of range")
  | some r =>
    .ok { st with scopeHeap := st.scopeHeap.set r (scopeSet (st.scopeHeap.getD r []) v.name v) }

/-- `self.variables.append({...})`: allocate a fresh scope dictionary and
push a reference to it. -/
def State.pushScope (st : State) (sc : VarScope) : State :=
  { st with
    scopeHeap := st.scopeHeap ++ [sc]
    stack := st.stack ++ [st.scopeHeap.length] }

/-- `self.variables.pop()` (the popped dictionary stays in the heap, exactly
as the Python object outlives the stack entry); `IndexError` when empty. -/
def State.popScope (st : State) : Except Exc State :=
  if st.stack.isEmpty then .error (.fault "IndexError: pop from empty list")
  else .ok { st with stack := st.stack.dropLast }

/-! ## Pure statement executors (no recursion into the evaluator) -/

/-- Python truthiness of `value == 0` (`False` for non-numbers, no error). -/
def valueEqZero : Value → Bool
  | .num n => n.toRat == 0
  | _ => false

/-- `_get_numeric_value`: the named variable must exist and be declared
`int`/`float`; returns its value object. -/
def getNumericValue (st : State) (n cmd : String) : Except Exc Value :=
  match st.getVar n with
  | none => .error (.interp none s!"Error: Variable {n} not defined")
  | some v =>
    if v.type = "int" ∨ v.type = "float" then .ok v.value
    else .error (.interp none s!"Error: Variable {n} is not a number for {cmd} operation")

/-- Python `+` on runtime values (numbers only here; anything else raised a
`TypeError` in the source, uncaught). -/
def pyAddValue (a b : Value) : Except Exc Value :=
  match a, b with
  | .num x, .num y => .ok (.num (pyAdd x y))
  | _, _ => .error (.fault "TypeError: unsupported operand type(s) for +")

/-- Python `-` on runtime values. -/
def pySubValue (a b : Value) : Except Exc Value :=
  match a, b with
  | .num x, .num y => .ok (.num (pySub x y))
  | _, _ => .error (.fault "TypeError: unsupported operand type(s) for -")

/-- Python `*` on runtime values. -/
def pyMulValue (a b : Value) : Except Exc Value :=
  match a, b with
  | .num x, .num y => .ok (.num (pyMul x y))
  | _, _ => .error (.fault "TypeError: unsupported operand type(s) for *")

/-- Python `/` on runtime values. -/
def pyDivValue (a b : Value) : Except Exc Value :=
  match a, b with
  | .num x, .num y => .ok (.num (pyDiv x y))
  | _, _ => .error (.fault "TypeError: unsupported operand type(s) for /")

/-- A decimal digit. -/
def isDigitChar (c : Char) : Bool :=
  48 ≤ c.toNat && c.toNat ≤ 57

/-- Accumulate a digit string's value. -/
def natOfDigits : List Char → Nat → Nat
  | [], acc => acc
  | c :: cs, acc => natOfDigits cs (acc * 10 + (c.toNat - 48))

/-- A nonempty all-digit character list's value. -/
def parseDigits (l : List Char) : Option Nat :=
  if l ≠ [] ∧ l.all isDigitChar then some (natOfDigits l 0) else none

/-- Python `int(s)` on a string (optional sign then digits; adequate for
every string the claims exercise). -/
def parsePyInt (s : String) : Option ℤ :=
  match s.data with
  | '-' :: rest => (parseDigits rest).map (fun n => -(n : ℤ))
  | l => (parseDigits l).map (fun n => (n : ℤ))

/-- Split a character list at its first dot. -/
def splitAtDot : List Char → (List Char × Option (List Char))
  | [] => ([], none)
  | c :: cs =>
    if c = '.' then ([], some cs)
    else
      let p := splitAtDot cs
      (c :: p.1, p.2)

/-- The condition evaluator's numeric-literal regex `^-?\d+(\.\d+)?$`. -/
def isNumericLit (s : String) : Bool :=
  let l := match s.data with
    | '-' :: r => r
    | r => r
  match splitAtDot l with
  | (a, none) => a ≠ [] && a.all isDigitChar
  | (a, some b) => (a ≠ [] && a.all isDigitChar) && (b ≠ [] && b.all isDigitChar)

/-- Parse a string matching `isNumericLit`: with a `.` it is a Python
`float` literal, whose decimal value rounds to the nearest binary64, else
an exact `int`; `int 0` as a harmless default otherwise. -/
def parseNumericLit (s : String) : PyNum :=
  let neg : Bool := match s.data with
    | '-' :: _ => true
    | _ => false
  let l := match s.data with
    | '-' :: r => r
    | r => r
  match splitAtDot l with
  | (a, none) =>
    let n : ℤ := (natOfDigits a 0 : ℤ)
    .int (if neg then -n else n)
  | (a, some b) =>
    let mag : ℤ := (natOfDigits a 0 : ℤ) * ((10 : ℤ) ^ b.length) + (natOfDigits b 0 : ℤ)
    .float (roundB64 (mkRat (if neg then -mag else mag) ((10 : ℕ) ^ b.length)))

/-- Python `float(s)` on a string, modelled for plain decimal literals (the
source never feeds it anything else in the claims' programs); the result is
the nearest binary64. -/
def parsePyFloat (s : String) : Option ℚ :=
  if isNumericLit s then some (roundB64 (parseNumericLit s).toRat) else none

/-- `execute_var`: declare a variable; only `int`/`float`/`str` types are
accepted, everything else is the hard `Unsupported type` error raised before
any variable is created. -/
def executeVar (st : State) (ty name : String) (setv : Option String) : Except Exc State :=
  if ty = "" ∨ name = "" then
    .error (.interp none "Error: VAR command requires --type and --name")
  else if strLower ty = "int" then
    match setv with
    | none => st.setVariable (mkVariable ty name (.num (.int 0)))
    | some s =>
      match parsePyInt s with
      | some n => st.setVariable (mkVariable ty name (.num (.int n)))
      | none => .error (.interp none s!"Error: Invalid value for type {ty}")
  else if strLower ty = "float" then
    match setv with
    | none => st.setVariable (mkVariable ty name (.num (.float 0)))
    | some s =>
      match parsePyFloat s with
      | some q => st.setVariable (mkVariable ty name (.num (.float q)))
      | none => .error (.interp none s!"Error: Invalid value for type {ty}")
  else if strLower ty = "str" then
    match setv with
    | none => st.setVariable (mkVariable ty name (.str ""))
    | some s => st.setVariable (mkVariable ty name (.str s))
  else
    .error (.interp none s!"Error: Unsupported type {ty}")

/-- `execute_mem_release`: delete the innermost binding of the name. -/
def eraseVarIn (heap : List VarScope) : List Nat → String → Option (List VarScope)
  | [], _ => none
  | r :: rs, n =>
    if (scopeGet (heap.getD r []) n).isSome then
      some (heap.set r (scopeErase (heap.getD r []) n))
    else
      eraseVarIn heap rs n

/-- `execute_mem_release`. -/
def executeMemRelease (st : State) (n : String) : Except Exc State :=
  if n = "" then
    .error (.interp none "Error: MEM --release requires a variable name")
  else
    match eraseVarIn st.scopeHeap st.stack.reverse n with
    | some h => .ok { st with scopeHeap := h }
    | none => .error (.interp none s!"Error: Variable {n} not found")

/-- `execute_print` (`PRI --print`): looks the variable up and prints
`name: value`; modelled as appending the pair to the trace. -/
def executePrint (st : State) (n : String) : Except Exc State :=
  match st.getVar n with
  | none => .error (.interp none s!"Lỗi: Biến {n} không tồn tại.")
  | some v => .ok { st with trace := st.trace ++ [(v.name, v.value)] }

/-- `_assign_output`'s destination-type coercion (`int` truncates, `float`
widens); `ValueError` becomes the cast `InterpreterError`, `TypeError` is
not caught there. -/
def assignCoerce (t : String) (v : Value) (outName cmd : String) : Except Exc Value :=
  if t = "int" then
    match v with
    | .num n => .ok (.num (.int n.toIntTrunc))
    | .str s =>
      match parsePyInt s with
      | some n => .ok (.num (.int n))
      | none => .error (.interp none s!"Error: Cannot cast value to type {t} for variable {outName}")
    | _ => .error (.fault s!"TypeError: int() argument in {cmd}")
  else if t = "float" then
    match v with
    | .num n => .ok (.num (.float (pyFloat n)))
    | .str s =>
      match parsePyFloat s with
      | some q => .ok (.num (.float q))
      | none => .error (.interp none s!"Error: Cannot cast value to type {t} for variable {outName}")
    | _ => .error (.fault s!"TypeError: float() argument in {cmd}")
  else
    .ok v

/-- `_assign_output`: create the destination as a fresh `int` variable when
absent, require a numeric destination, coerce to its declared type, then
mutate the destination object's value in place. -/
def assignOutput (st : State) (outName : String) (v : Value) (cmd : String) : Except Exc State :=
  match st.getVar outName with
  | none => do
    let st1 ← st.setVariable (mkVariable "int" outName .pynone)
    let v' ← assignCoerce "int" v outName cmd
    match st1.setVarValue outName v' with
    | some st2 => .ok st2
    | none => .error (.fault "AttributeError: unreachable")
  | some ov =>
    if ov.type = "int" ∨ ov.type = "float" then do
      let v' ← assignCoerce ov.type v outName cmd
      match st.setVarValue outName v' with
      | some st2 => .ok st2
      | none => .error (.fault "AttributeError: unreachable")
    else
      .error (.interp none s!"Error: Output variable {outName} is not a number for {cmd} operation")

/-- `execute_sum`'s accumulation loop (`total = 0; total += value`). -/
def sumFold (st : State) : List String → Value → Except Exc Value
  | [], acc => .ok acc
  | n :: ns, acc => do
    let v ← getNumericValue st n "SUM"
    let acc' ← pyAddValue acc v
    sumFold st ns acc'

/-- `execute_sum`. -/
def executeSum (st : State) (inputs : List String) (output : String) : Except Exc State :=
  if inputs = [] ∨ output = "" then
    .error (.interp none "Error: SUM command requires --input(s) and --output")
  else if inputs.length < 2 then
    .error (.interp none "Error: SUM command requires at least two --input arguments")
  else do
    let total ← sumFold st inputs (.num (.int 0))
    assignOutput st output total "SUM"

/-- `execute_subtract`'s loop over `inputs[1:]`. -/
def subFold (st : State) : List String → Value → Except Exc Value
  | [], acc => .ok acc
  | n :: ns, acc => do
    let v ← getNumericValue st n "SUBTRACT"
    let acc' ← pySubValue acc v
    subFold st ns acc'

/-- `execute_subtract`: left fold starting from the first input. -/
def executeSubtract (st : State) (inputs : List String) (output : String) : Except Exc State :=
  if inputs = [] ∨ output = "" then
    .error (.interp none "Error: SUBTRACT command requires --input(s) and --output")
  else if inputs.length < 2 then
    .error (.interp none "Error: SUBTRACT command requires at least two --input arguments")
  else
    match inputs with
    | [] => .error (.interp none "Error: SUBTRACT command requires --input(s) and --output")
    | i0 :: rest => do
      let first ← getNumericValue st i0 "SUBTRACT"
      let result ← subFold st rest first
      assignOutput st output result "SUBTRACT"

/-- `execute_multiply`'s accumulation loop (`result = 1; result *= value`). -/
def mulFold (st : State) : List String → Value → Except Exc Value
  | [], acc => .ok acc
  | n :: ns, acc => do
    let v ← getNumericValue st n "MULTIPLY"
    let acc' ← pyMulValue acc v
    mulFold st ns acc'

/-- `execute_multiply`. -/
def executeMultiply (st : State) (inputs : List String) (output : String) : Except Exc State :=
  if inputs = [] ∨ output = "" then
    .error (.interp none "Error: MULTIPLY command requires --input(s) and --output")
  else if inputs.length < 2 then
    .error (.interp none "Error: MULTIPLY command requires at least two --input arguments")
  else do
    let total ← mulFold st inputs (.num (.int 1))
    assignOutput st output total "MULTIPLY"

/-- `execute_divide`'s loop over `inputs[1:]`: each divisor is checked
against zero before the division (`if value == 0: raise`). -/
def divFold (st : State) : List String → Value → Except Exc Value
  | [], acc => .ok acc
  | n :: ns, acc => do
    let v ← getNumericValue st n "DIVIDE"
    if valueEqZero v then
      .error (.interp none "Error: Division by zero")
    else do
      let acc' ← pyDivValue acc v
      divFold st ns acc'

/-- `execute_divide`: left fold with true division, hard error on any zero
divisor; the output is only assigned after the whole fold succeeds. -/
def executeDivide (st : State) (inputs : List String) (output : String) : Except Exc State :=
  if inputs = [] ∨ output = "" then
    .error (.interp none "Error: DIVIDE command requires --input(s) and --output")
  else if inputs.length < 2 then
    .error (.interp none "Error: DIVIDE command requires at least two --input arguments")
  else
    match inputs with
    | [] => .error (.interp none "Error: DIVIDE command requires --input(s) and --output")
    | i0 :: rest => do
      let first ← getNumericValue st i0 "DIVIDE"
      let result ← divFold st rest first
      assignOutput st output result "DIVIDE"

/-- `execute_array_create`: allocates `[0] * max_size` (a fresh list object)
and binds an `array`-typed variable to it.  Note the slots are the integer
`0`, not `None`. -/
def executeArrCreate (st : State) (name : String) (maxSize : Nat) : Except Exc State :=
  if name = "" ∨ maxSize = 0 then
    .error (.interp none "Lỗi: Lệnh ARR --create cần một tên và số phần tử lớn hơn 0")
  else do
    let ref := st.arrHeap.length
    let st1 := { st with arrHeap := st.arrHeap ++ [List.replicate maxSize (Value.num (.int 0))] }
    st1.setVariable (mkVariable "array" name (.arr ref))

/-- `execute_array_set_data`: bounds-checked write of an existing variable's
value into the named array's slot (mutating the shared list object). -/
def executeArrSetData (st : State) (name dataVar : String) (pos : Nat) : Except Exc State :=
  match st.getVar name with
  | none => .error (.interp none s!"Lỗi: Mảng {name} không tồn tại")
  | some av =>
    if av.type ≠ "array" then
      .error (.interp none s!"Lỗi: Mảng {name} không tồn tại")
    else
      match av.value with
      | .arr r =>
        match st.arrHeap.get? r with
        | none => .error (.fault "dangling array reference")
        | some lst =>
          if pos ≥ lst.length then
            .error (.interp none s!"Lỗi: Vị trí {pos} nằm ngoài phạm vi của mảng {name}")
          else
            match st.getVar dataVar with
            | none => .error (.interp none s!"Lỗi: Biến {dataVar} không tồn tại")
            | some dv =>
              .ok { st with arrHeap := st.arrHeap.set r (lst.set pos dv.value) }
      | _ => .error (.fault "TypeError: len() of unsized object")

/-- `execute_array_get_data`: bounds-checked read; a `None` slot is the hard
`no value` error; the result is stored into an `auto`-typed destination. -/
def executeArrGetData (st : State) (name : String) (index : Nat) (save : String) : Except Exc State :=
  match st.getVar name with
  | none => .error (.interp none s!"Lỗi: Mảng {name} không tồn tại")
  | some av =>
    if av.type ≠ "array" then
      .error (.interp none s!"Lỗi: Mảng {name} không tồn tại")
    else
      match av.value with
      | .arr r =>
        match st.arrHeap.get? r with
        | none => .error (.fault "dangling array reference")
        | some lst =>
          if index ≥ lst.length then
            .error (.interp none s!"Lỗi: Vị trí {index} nằm ngoài phạm vi của mảng {name}")
          else
            match lst.getD index .pynone with
            | .pynone => .error (.interp none s!"Lỗi: Mảng {name} tại vị trí {index} không có giá trị")
            | data => st.setVariable (mkVariable "auto" save data)
      | _ => .error (.fault "TypeError: len() of unsized object")

/-! ## Condition evaluation (`evaluate_condition`)

Modelled post-tokenization: a condition is two tokens and one comparison
operator (the only form the restricted evaluator gives a defined meaning,
spec §4.3/§9).  Each token is substituted: a resolved `int`/`float`
variable contributes its numeric value, a `str` variable its quoted text,
any other variable type is the hard `Unsupported variable type` error; an
unresolved token is a numeric literal when it matches `^-?\d+(\.\d+)?$`,
else a quoted text literal.  A failure of the final restricted `eval`
(e.g. ordering a number against text) is the `Invalid condition` error. -/

/-- Rendering of a value into the substituted expression text (abstracts
Python's `str(...)` for the non-text shapes, none of which a claim
exercises). -/
def pyRender : Value → String
  | .num (.int n) => toString n
  | .num (.float q) => toString q
  | .str s => s
  | .arr r => s!"<list {r}>"
  | .pynone => "None"

/-- A substituted condition operand. -/
inductive CondVal where
  | num (n : PyNum)
  | str (s : String)
deriving DecidableEq

/-- Substitute one condition token. -/
def resolveCondOperand (st : State) (tok : String) : Except Exc CondVal :=
  match st.getVar tok with
  | some v =>
    if v.type = "int" ∨ v.type = "float" then
      match v.value with
      | .num n => .ok (.num n)
      | .str s =>
        if isNumericLit s then .ok (.num (parseNumericLit s))
        else .error (.interp none "Error: Invalid condition")
      | _ => .error (.interp none "Error: Invalid condition")
    else if v.type = "str" then
      match v.value with
      | .str s => .ok (.str s)
      | w => .ok (.str (pyRender w))
    else
      let t := v.type
      .error (.interp none s!"Error: Unsupported variable type {t} in condition")
  | none =>
    if isNumericLit tok then .ok (.num (parseNumericLit tok))
    else .ok (.str tok)

/-- Lexicographic (code-point) order on text, as Python compares strings. -/
def charListLt : List Char → List Char → Bool
  | [], [] => false
  | [], _ :: _ => true
  | _ :: _, [] => false
  | a :: as, b :: bs =>
    if a < b then true
    else if b < a then false
    else charListLt as bs

/-- `a < b` on strings. -/
def strLtB (a b : String) : Bool :=
  charListLt a.data b.data

/-- Numeric comparison. -/
def ratCmp (op : CmpOp) (a b : ℚ) : Bool :=
  match op with
  | .gt => decide (b < a)
  | .lt => decide (a < b)
  | .ge => decide (b ≤ a)
  | .le => decide (a ≤ b)
  | .eq => decide (a = b)
  | .ne => decide (a ≠ b)

/-- Text comparison. -/
def strCmp (op : CmpOp) (a b : String) : Bool :=
  match op with
  | .gt => strLtB b a
  | .lt => strLtB a b
  | .ge => !(strLtB a b)
  | .le => !(strLtB b a)
  | .eq => a == b
  | .ne => a != b

/-- `evaluate_condition` on one comparison: substitute both sides, then
compare.  Python compares a number with text as unequal under `==`/`!=`
and raises a `TypeError` for the order operators, which the blanket
`except` turns into the `Invalid condition` error. -/
def evalCondition (st : State) (c : Cond) : Except Exc Bool := do
  let l ← resolveCondOperand st c.lhs
  let r ← resolveCondOperand st c.rhs
  match l, r with
  | .num a, .num b => .ok (ratCmp c.op a.toRat b.toRat)
  | .str a, .str b => .ok (strCmp c.op a b)
  | _, _ =>
    match c.op with
    | .eq => .ok false
    | .ne => .ok true
    | _ => .error (.interp none "Error: Invalid condition")

/-! ## The evaluator (`interpret` and the compound-statement executors)

One fuel-indexed structural recursion `run` over a request type, so that
every execution is kernel-computable; the named wrappers below it are the
source's methods.  `none` means the fuel ran out (the source would still be
running). -/

/-- An execution result: normal completion or an escaping exception, plus
the state at that moment (mutations made before a raise persist). -/
abbrev XR := Except Exc Unit × State

/-- Function lookup for `DEF --call`: the call-local table is consulted
only when it is a non-empty dict (`if local_functions and name in ...`),
then the global table. -/
def lookupFunction (st : State) (lf : Option Nat) (name : String) : Option Function :=
  match lf with
  | some r =>
    let tbl := st.localFnHeap.getD r []
    if tbl.isEmpty then st.functions.lookup name
    else
      match tbl.lookup name with
      | some f => some f
      | none => st.functions.lookup name
  | none => st.functions.lookup name

/-- `DEF --create`: register into the call-local table when one was passed
(`local_functions is not None`), else into the global table. -/
def executeDefCreate (st : State) (name : String) (params : List String)
    (body : List Stmt) (lf : Option Nat) : State :=
  let fn : Function := ⟨name, params, body, "direct"⟩
  match lf with
  | some r =>
    { st with localFnHeap := st.localFnHeap.set r (tblSet (st.localFnHeap.getD r []) name fn) }
  | none => { st with functions := tblSet st.functions name fn }

/-- `DEF --call` argument binding: resolve each argument in the caller's
scopes (plus, inside a module execution, the module scope searched first)
and copy it into the new scope as a fresh `Variable` sharing type and value
(`Variable(var.type, param, var.value)` — note the value object itself is
shared, so an array argument shares its backing list). -/
def buildLocalScope (st : State) (refs : List Nat) :
    List (String × String) → VarScope → Except Exc VarScope
  | [], sc => .ok sc
  | (param, inName) :: rest, sc =>
    match st.getVarRefs refs inName with
    | none =>
      .error (.interp none s!"Error: Variable {inName} not defined for function parameter {param}")
    | some v => buildLocalScope st refs rest (scopeSet sc param (mkVariable v.type param v.value))

/-- The captured-return save step of `execute_def_call`.  When the body
never raised a return signal, `return_value` was never assigned and Python
raises `UnboundLocalError` at its first read — outside the interpreter's
error channel. -/
def defCallCoerce (t : String) (v : Value) (save : String) : Except Exc Value :=
  if t = "int" then
    match v with
    | .num n => .ok (.num (.int n.toIntTrunc))
    | .str s =>
      match parsePyInt s with
      | some n => .ok (.num (.int n))
      | none => .error (.interp none s!"Error: Cannot cast return value to type {t} for variable {save}")
    | _ => .error (.fault "TypeError: int() argument")
  else if t = "float" then
    match v with
    | .num n => .ok (.num (.float (pyFloat n)))
    | .str s =>
      match parsePyFloat s with
      | some q => .ok (.num (.float q))
      | none => .error (.interp none s!"Error: Cannot cast return value to type {t} for variable {save}")
    | _ => .error (.fault "TypeError: float() argument")
  else if t = "str" then .ok (.str (pyRender v))
  else .ok v

/-- The save step of `execute_def_call` (runs after the local scope was
popped); `rv = none` models the never-assigned `return_value`. -/
def defCallSave (st : State) (save : String) (rv : Option Value) : XR :=
  if save = "" then (.ok (), st)
  else
    match st.getVar save with
    | none =>
      match rv with
      | none =>
        (.error (.fault "UnboundLocalError: local variable return_value referenced before assignment"), st)
      | some v =>
        match st.setVariable (mkVariable "auto" save v) with
        | .ok st' => (.ok (), st')
        | .error e => (.error e, st)
    | some ov =>
      if ov.type = "int" ∨ ov.type = "float" ∨ ov.type = "str" ∨ ov.type = "auto" then
        match rv with
        | none =>
          (.error (.fault "UnboundLocalError: local variable return_value referenced before assignment"), st)
        | some v =>
          match defCallCoerce ov.type v save with
          | .error e => (.error e, st)
          | .ok v' =>
            match st.setVarValue save v' with
            | some st' => (.ok (), st')
            | none => (.error (.fault "AttributeError: unreachable"), st)
      else
        let t := ov.type
        (.error (.interp none s!"Error: Unsupported type {t} for saving function return value"), st)

/-- `LOAD` input binding: each named caller variable must exist and its
declared type must equal the declared input type exactly; a fresh copy is
bound under the input's internal name. -/
def buildClassScope (st : State) :
    List ((String × String) × String) → VarScope → Except Exc VarScope
  | [], sc => .ok sc
  | ((ty, vname), inName) :: rest, sc =>
    match st.getVar inName with
    | none =>
      .error (.interp none s!"Error: Variable {inName} not defined for class input {vname}")
    | some v =>
      if v.type ≠ ty then
        let vt := v.type
        .error (.interp none s!"Error: Variable {inName} type {vt} does not match expected type {ty} for class input {vname}")
      else
        buildClassScope st rest (scopeSet sc vname (mkVariable ty vname v.value))

/-- `LOAD` output mapping: each declared output is read from the (popped
but retained) module scope; an existing destination must match the output's
declared type exactly and is mutated in place, a missing one is created
with the declared type. -/
def mapOutputs (st : State) (clsRef : Nat) (cdName : String) :
    List ((String × String) × String) → XR
  | [] => (.ok (), st)
  | ((ty, vname), saveName) :: rest =>
    match scopeGet (st.scopeHeap.getD clsRef []) vname with
    | none =>
      (.error (.interp none s!"Error: Output variable {vname} not defined in class {cdName}"), st)
    | some ov =>
      match st.getVar saveName with
      | some ex =>
        if ex.type ≠ ty then
          let et := ex.type
          (.error (.interp none s!"Error: Variable {saveName} type {et} does not match expected type {ty} for class output {vname}"), st)
        else
          match st.setVarValue saveName ov.value with
          | some st' => mapOutputs st' clsRef cdName rest
          | none => (.error (.fault "AttributeError: unreachable"), st)
      | none =>
        match st.setVariable (mkVariable ty saveName ov.value) with
        | .ok st' => mapOutputs st' clsRef cdName rest
        | .error e => (.error e, st)

/-- The `except InterpreterError` wrap and `finally` pop of `execute_load`,
then output-count validation and output mapping on the success path. -/
def loadFinish (cd : ClassDef) (saves : List String) (clsRef : Nat)
    (out : Except Exc Unit) (st : State) : XR :=
  let nm := cd.name
  let out' : Except Exc Unit :=
    match out with
    | .error (.interp ln m) => .error (.interp ln s!"Error executing class {nm}: {m}")
    | o => o
  match st.popScope with
  | .error e => (.error e, st)
  | .ok st' =>
    match out' with
    | .ok _ =>
      if saves.length ≠ cd.outputs.length then
        let no := cd.outputs.length
        let ns := saves.length
        (.error (.interp none s!"Error: Class {nm} produces {no} outputs, but {ns} --save arguments provided"), st')
      else
        mapOutputs st' clsRef nm (cd.outputs.zip saves)
    | e => (e, st')

/-- The `Line {i+1}:` wrap of `interpret` (see the header note: only the
presence of the tag is claim-relevant; the recorded number is the 1-based
statement index in the current statement list). -/
def compoundWrap (idx : Nat) (inFn : Bool) : XR → XR
  | (.error (.interp _ m), st) => (.error (.interp (some (idx + 1)) m), st)
  | (.error (.funcRet v), st) =>
    if inFn then (.error (.funcRet v), st)
    else (.error (.interp none "Error: RETURN statement outside of function"), st)
  | r => r

/-- The simple-statement branch of `interpret`: `except InterpreterError`
re-raises with the line tag; other exceptions pass untouched.  The simple
executors never mutate state before raising, so the pre-statement state is
returned on the error path. -/
def simpleWrap (idx : Nat) (st0 : State) : Except Exc State → XR
  | .ok st' => (.ok (), st')
  | .error (.interp _ m) => (.error (.interp (some (idx + 1)) m), st0)
  | .error e => (.error e, st0)

/-- `FOR` bound resolution: an existing variable's value, else the text
parsed by `int(...)` (a `ValueError` there is uncaught). -/
def forResolve (st : State) (s : String) : Except Exc Value :=
  match st.getVar s with
  | some v => .ok v.value
  | none =>
    match parsePyInt s with
    | some n => .ok (.num (.int n))
    | none => .error (.fault s!"ValueError: invalid literal for int(): {s}")

/-- The `FOR` loop condition `value <= end` (`step > 0`) or
`value >= end`; Python orders numbers with numbers and text with text and
raises `TypeError` otherwise. -/
def loopCond (x endV : Value) (pos : Bool) : Except Exc Bool :=
  match x, endV with
  | .num a, .num b =>
    .ok (if pos then decide (a.toRat ≤ b.toRat) else decide (b.toRat ≤ a.toRat))
  | .str a, .str b =>
    .ok (if pos then !(strLtB b a) else !(strLtB a b))
  | _, _ => .error (.fault "TypeError: unorderable comparison")

/-- The `finally` pop followed by re-raising `e`. -/
def popFinally (e : Exc) (st : State) : XR :=
  match st.popScope with
  | .ok st' => (.error e, st')
  | .error e2 => (.error e2, st)

/-- The execution requests of the mutually recursive source methods. -/
inductive Req where
  | stmts (l : List Stmt) (idx : Nat) (inFn : Bool) (lf cs : Option Nat)
  | stmt (s : Stmt) (idx : Nat) (inFn : Bool) (lf cs : Option Nat)
  | forEnter (v : Option String) (startS stopS stepS : String) (body : List Stmt)
  | forIter (loopVar : String) (endV stepV : Value) (pos : Bool) (body : List Stmt)
  | ifEnter (c : Cond) (body elseB : List Stmt)
  | whileEnter (c : Cond) (body : List Stmt)
  | whileIter (c : Cond) (body : List Stmt)
  | defCallReq (name : String) (inputs : List String) (save : String) (lf cs : Option Nat)
  | loadReq (cd : ClassDef) (inputs saves : List String)

/-- The evaluator: `interpret` (`.stmts`/`.stmt`), `execute_for`
(`.forEnter`/`.forIter`), `execute_if` (`.ifEnter`), `execute_while`
(`.whileEnter`/`.whileIter`), `execute_def_call` (`.defCallReq`) and
`execute_load` (`.loadReq`), as one fuel-indexed recursion. -/
def run : Nat → Req → State → Option XR
  | 0, _, _ => none
  | Nat.succ fuel, req, st =>
    match req with
    | .stmts l idx inFn lf cs =>
      match l with
      | [] => some (.ok (), st)
      | s :: rest =>
        match run fuel (.stmt s idx inFn lf cs) st with
        | none => none
        | some (.ok _, st') => run fuel (.stmts rest (idx + 1) inFn lf cs) st'
        | some r => some r
    | .stmt s idx inFn lf cs =>
      match s with
      | .forLoop v a b c body => (run fuel (.forEnter v a b c body) st).map (compoundWrap idx inFn)
      | .ifStmt c body els => (run fuel (.ifEnter c body els) st).map (compoundWrap idx inFn)
      | .whileStmt c body => (run fuel (.whileEnter c body) st).map (compoundWrap idx inFn)
      | .defCreate n ps body => some (compoundWrap idx inFn (.ok (), executeDefCreate st n ps body lf))
      | .ret v =>
        match st.getVar v with
        | none => some (.error (.interp none s!"Error: Variable {v} not defined for RETURN"), st)
        | some var => some (.error (.funcRet var.value), st)
      | .defCall n ins save => run fuel (.defCallReq n ins save lf cs) st
      | .load nm cIns cOuts lib code ins saves =>
        run fuel (.loadReq ⟨nm, cIns, cOuts, code, lib⟩ ins saves) st
      | .varDecl t n sv => some (simpleWrap idx st (executeVar st t n sv))
      | .sum ins out => some (simpleWrap idx st (executeSum st ins out))
      | .subtract ins out => some (simpleWrap idx st (executeSubtract st ins out))
      | .multiply ins out => some (simpleWrap idx st (executeMultiply st ins out))
      | .divide ins out => some (simpleWrap idx st (executeDivide st ins out))
      | .memRelease n => some (simpleWrap idx st (executeMemRelease st n))
      | .priPrint n => some (simpleWrap idx st (executePrint st n))
      | .arrCreate n m => some (simpleWrap idx st (executeArrCreate st n m))
      | .arrSetData n dv p => some (simpleWrap idx st (executeArrSetData st n dv p))
      | .arrGetData n i sv => some (simpleWrap idx st (executeArrGetData st n i sv))
    | .forEnter vn startS stopS stepS body =>
      match forResolve st startS with
      | .error e => some (.error e, st)
      | .ok startV =>
        match forResolve st stopS with
        | .error e => some (.error e, st)
        | .ok endV =>
          match forResolve st stepS with
          | .error e => some (.error e, st)
          | .ok stepV =>
            let loopVar := vn.getD "i"
            let st1 := st.pushScope []
            match st1.setVariable (mkVariable "int" loopVar startV) with
            | .error e => some (.error e, st1)
            | .ok st2 =>
              match stepV with
              | .num sn => run fuel (.forIter loopVar endV stepV (decide (0 < sn.toRat)) body) st2
              | _ => some (.error (.fault "TypeError: unorderable comparison"), st2)
    | .forIter loopVar endV stepV pos body =>
      match st.getVar loopVar with
      | none => some (.error (.fault "AttributeError: NoneType object has no attribute value"), st)
      | some lv =>
        match loopCond lv.value endV pos with
        | .error e => some (.error e, st)
        | .ok false =>
          match st.popScope with
          | .ok st' => some (.ok (), st')
          | .error e => some (.error e, st)
        | .ok true =>
          match run fuel (.stmts body 0 false none none) st with
          | none => none
          | some (.ok _, st') =>
            match st'.getVar loopVar with
            | none => some (.error (.fault "AttributeError: NoneType object has no attribute value"), st')
            | some lv' =>
              match pyAddValue lv'.value stepV with
              | .error e => some (.error e, st')
              | .ok nv =>
                match st'.setVarValue loopVar nv with
                | some st'' => run fuel (.forIter loopVar endV stepV pos body) st''
                | none => some (.error (.fault "AttributeError: unreachable"), st')
          | some (e, st') => some (e, st')
    | .ifEnter c body els =>
      match evalCondition st c with
      | .error e => some (.error e, st)
      | .ok true =>
        match run fuel (.stmts body 0 false none none) (st.pushScope []) with
        | none => none
        | some (.ok _, st2) =>
          match st2.popScope with
          | .ok st3 => some (.ok (), st3)
          | .error e => some (.error e, st2)
        | some (e, st2) => some (e, st2)
      | .ok false =>
        if els.isEmpty then some (.ok (), st)
        else
          match run fuel (.stmts els 0 false none none) (st.pushScope []) with
          | none => none
          | some (.ok _, st2) =>
            match st2.popScope with
            | .ok st3 => some (.ok (), st3)
            | .error e => some (.error e, st2)
          | some (e, st2) => some (e, st2)
    | .whileEnter c body => run fuel (.whileIter c body) (st.pushScope [])
    | .whileIter c body =>
      match evalCondition st c with
      | .error e => some (popFinally e st)
      | .ok false =>
        match st.popScope with
        | .ok st' => some (.ok (), st')
        | .error e => some (.error e, st)
      | .ok true =>
        match run fuel (.stmts body 0 true none none) st with
        | none => none
        | some (.ok _, st') => run fuel (.whileIter c body) st'
        | some (.error (.funcRet v), st') =>
          match st'.popScope with
          | .error e => some (.error e, st')
          | .ok st2 =>
            match st2.popScope with
            | .ok st3 => some (.error (.funcRet v), st3)
            | .error e => some (.error e, st2)
        | some (e, st') =>
          match e with
          | .error exc => some (popFinally exc st')
          | .ok _ => some (.ok (), st')
    | .defCallReq name ins save lf cs =>
      match lookupFunction st lf name with
      | none => some (.error (.interp none s!"Error: Function {name} is not defined"), st)
      | some fn =>
        if ins.length ≠ fn.parameters.length then
          let np := fn.parameters.length
          let ng := ins.length
          some (.error (.interp none s!"Error: Function {name} expects {np} arguments, got {ng}"), st)
        else
          let refs :=
            match cs with
            | some r => st.stack ++ [r]
            | none => st.stack
          match buildLocalScope st refs (fn.parameters.zip ins) [] with
          | .error e => some (.error e, st)
          | .ok sc =>
            match run fuel (.stmts fn.code 0 true lf cs) (st.pushScope sc) with
            | none => none
            | some (out, st2) =>
              match st2.popScope with
              | .error e => some (.error e, st2)
              | .ok st3 =>
                match out with
                | .ok _ => some (defCallSave st3 save none)
                | .error (.funcRet v) => some (defCallSave st3 save (some v))
                | .error e => some (.error e, st3)
    | .loadReq cd ins saves =>
      if ins.length ≠ cd.inputs.length then
        let nm := cd.name
        let ni := cd.inputs.length
        let ng := ins.length
        some (.error (.interp none s!"Error: Class {nm} expects {ni} inputs, got {ng}"), st)
      else
        match buildClassScope st (cd.inputs.zip ins) [] with
        | .error e => some (.error e, st)
        | .ok sc =>
          let clsRef := st.scopeHeap.length
          let st1 := st.pushScope sc
          let lfr := st1.localFnHeap.length
          let st2 := { st1 with localFnHeap := st1.localFnHeap ++ [[]] }
          match
            (if cd.libCode.isEmpty then some (Except.ok (), st2)
             else run fuel (.stmts cd.libCode 0 false (some lfr) (some clsRef)) st2) with
          | none => none
          | some (.ok _, st3) =>
            match run fuel (.stmts cd.code 0 false (some lfr) (some clsRef)) st3 with
            | none => none
            | some (out, st4) => some (loadFinish cd saves clsRef out st4)
          | some (out, st3) => some (loadFinish cd saves clsRef out st3)

/-- `interpret` over a statement list. -/
def interpretStmts (fuel : Nat) (l : List Stmt) (idx : Nat) (inFn : Bool)
    (lf cs : Option Nat) (st : State) : Option XR :=
  run fuel (.stmts l idx inFn lf cs) st

/-- `execute_for`. -/
def execFor (fuel : Nat) (v : Option String) (startS stopS stepS : String)
    (body : List Stmt) (st : State) : Option XR :=
  run fuel (.forEnter v startS stopS stepS body) st

/-- `execute_if`. -/
def execIf (fuel : Nat) (c : Cond) (body elseB : List Stmt) (st : State) : Option XR :=
  run fuel (.ifEnter c body elseB) st

/-- `execute_while`. -/
def execWhile (fuel : Nat) (c : Cond) (body : List Stmt) (st : State) : Option XR :=
  run fuel (.whileEnter c body) st

/-- `execute_def_call`. -/
def execDefCall (fuel : Nat) (name : String) (inputs : List String) (save : String)
    (lf cs : Option Nat) (st : State) : Option XR :=
  run fuel (.defCallReq name inputs save lf cs) st

/-- `execute_load` (the class file already read and parsed; file access is
an external collaborator and `parse_class_definition` is pure text
processing no claim touches). -/
def execLoad (fuel : Nat) (cd : ClassDef) (inputs saves : List String) (st : State) : Option XR :=
  run fuel (.loadReq cd inputs saves) st

/-! ## Observation helpers and concrete fixtures -/

/-- The outcome component of an evaluator result. -/
def outcomeOf (r : Option XR) : Option (Except Exc Unit) :=
  r.map (fun p => p.1)

/-- The environment-stack depth after an evaluator result. -/
def depthOf (r : Option XR) : Option Nat :=
  r.map (fun p => p.2.stack.length)

/-- The `PRI --print` output after an evaluator result. -/
def traceOf (r : Option XR) : Option (List (String × Value)) :=
  r.map (fun p => p.2.trace)

/-- A variable lookup in the state after an evaluator result. -/
def varOf (r : Option XR) (n : String) : Option (Option Variable) :=
  r.map (fun p => p.2.getVar n)

/-- The array heap after an evaluator result. -/
def arrsOf (r : Option XR) : Option (List (List Value)) :=
  r.map (fun p => p.2.arrHeap)

/-- A variable lookup after a successful simple-statement execution. -/
def okVar (r : Except Exc State) (n : String) : Option Variable :=
  match r with
  | .ok s => s.getVar n
  | .error _ => none

/-- The exception of a failed simple-statement execution. -/
def errOf (r : Except Exc State) : Option Exc :=
  match r with
  | .error e => some e
  | .ok _ => none

/-- The number held by a variable that `_get_numeric_value` accepts:
declared `int`/`float` and holding a number. -/
def numVal (st : State) (n : String) : Option PyNum :=
  match st.getVar n with
  | some v =>
    if v.type = "int" ∨ v.type = "float" then
      match v.value with
      | .num p => some p
      | _ => none
    else none
  | none => none

/-- The number an input name contributes (under the `numVal` hypothesis). -/
def nv (st : State) (n : String) : PyNum :=
  (numVal st n).getD (.int 0)

/-- The integer held by a variable `_get_numeric_value` accepts whose
value is a Python `int` (exact arithmetic, no rounding). -/
def intVal (st : State) (n : String) : Option ℤ :=
  match numVal st n with
  | some (.int k) => some k
  | _ => none

/-- The exact sum of all-integer inputs. -/
def intSumL (st : State) (l : List String) : ℤ :=
  (l.map (fun n => (intVal st n).getD 0)).sum

/-- The exact product of all-integer inputs. -/
def intProdL (st : State) (l : List String) : ℤ :=
  (l.map (fun n => (intVal st n).getD 0)).prod

/-- An interpreter state as `Interpreter.__init__` leaves it: one (global)
scope, nothing else. -/
def baseSt : State := ⟨[[]], [0], [], [], [], []⟩

/-- A state with one global `int` variable `x = 1`. -/
def c1St : State := ⟨[[("x", ⟨"int", "x", .num (.int 1)⟩)]], [0], [], [], [], []⟩

/-- The state `ARR --array --create a --max 3` produces from `baseSt`. -/
def c2StA : State :=
  ⟨[[("a", ⟨"array", "a", .arr 0⟩)]], [0],
   [[.num (.int 0), .num (.int 0), .num (.int 0)]], [], [], []⟩

/-- Two scopes (as inside a function call), `x = 7` in the outer one. -/
def c3St : State :=
  ⟨[[("x", ⟨"int", "x", .num (.int 7)⟩)], []], [0, 1], [], [], [], []⟩

/-- A function mutating slot 0 of its (array-typed) parameter `p` and
returning it. -/
def c4F : Function := ⟨"f", ["p"], [.arrSetData "p" "v" 0, .ret "p"], "direct"⟩

/-- Caller state for `c4F`: array `a` (one slot, holding `0`) and `v = 99`. -/
def c4St : State :=
  ⟨[[("a", ⟨"array", "a", .arr 0⟩), ("v", ⟨"int", "v", .num (.int 99)⟩)]],
   [0], [[.num (.int 0)]], [("f", c4F)], [], []⟩

/-- A module whose body also assigns to the caller-visible name `c` (not a
declared output). -/
def c5cd : ClassDef :=
  ⟨"MX", [("int", "a")], [("int", "r")],
   [.sum ["a", "a"] "c", .varDecl "int" "r" (some "1")], []⟩

/-- Caller state for `c5cd`: `a = 5` and `c = 3`. -/
def c5St : State :=
  ⟨[[("a", ⟨"int", "a", .num (.int 5)⟩), ("c", ⟨"int", "c", .num (.int 3)⟩)]],
   [0], [], [], [], []⟩

/-- A module with two `int` inputs and one `int` output `s = x + y`. -/
def c5cd2 : ClassDef :=
  ⟨"M2", [("int", "x"), ("int", "y")], [("int", "s")], [.sum ["x", "y"] "s"], []⟩

/-- Caller state for `c5cd2`: `a = 7`, `b = 3` and a bystander `z = 99`. -/
def c5St2 : State :=
  ⟨[[("a", ⟨"int", "a", .num (.int 7)⟩), ("b", ⟨"int", "b", .num (.int 3)⟩),
     ("z", ⟨"int", "z", .num (.int 99)⟩)]], [0], [], [], [], []⟩

/-- Caller state with `a` declared `float` (an input-type mismatch for
`c5cd2`). -/
def c5St3 : State :=
  ⟨[[("a", ⟨"float", "a", .num (.float 1)⟩), ("b", ⟨"int", "b", .num (.int 3)⟩)]],
   [0], [], [], [], []⟩

/-- A state with `x = 6` and `y = 0`. -/
def c6St : State :=
  ⟨[[("x", ⟨"int", "x", .num (.int 6)⟩), ("y", ⟨"int", "y", .num (.int 0)⟩)]],
   [0], [], [], [], []⟩

/-- The ascending `FOR` trace `i = 1,2,3,4,5`. -/
def c7TraceUp : List (String × Value) :=
  [("i", .num (.int 1)), ("i", .num (.int 2)), ("i", .num (.int 3)),
   ("i", .num (.int 4)), ("i", .num (.int 5))]

/-- The descending `FOR` trace `i = 5,4,3,2,1`. -/
def c7TraceDown : List (String × Value) :=
  [("i", .num (.int 5)), ("i", .num (.int 4)), ("i", .num (.int 3)),
   ("i", .num (.int 2)), ("i", .num (.int 1))]

/-- A state with `a = 5` and `b = 2`. -/
def c8St : State :=
  ⟨[[("a", ⟨"int", "a", .num (.int 5)⟩), ("b", ⟨"int", "b", .num (.int 2)⟩)]],
   [0], [], [], [], []⟩

/-- A state with float variables `x = 1e16`, `y = 1.0`, `z = -1e16` (all
three exactly representable in binary64: `10^16 = 5^16 * 2^16` has a
38-bit odd part). -/
def c8FSt : State :=
  ⟨[[("x", ⟨"float", "x", .num (.float ((10000000000000000 : ℤ) : ℚ))⟩),
     ("y", ⟨"float", "y", .num (.float 1)⟩),
     ("z", ⟨"float", "z", .num (.float ((-10000000000000000 : ℤ) : ℚ))⟩)]],
   [0], [], [], [], []⟩

/-- A state with array `a` whose slot 0 holds `4`. -/
def c9GetSt : State :=
  ⟨[[("a", ⟨"array", "a", .arr 0⟩)]], [0], [[.num (.int 4)]], [], [], []⟩

/-- A function with no parameters and an empty body (so no `RETURN` ever
executes). -/
def c10F : Function := ⟨"f0", [], [], "direct"⟩

/-- Caller state with `c10F` registered globally. -/
def c10St : State := ⟨[[]], [0], [], [("f0", c10F)], [], []⟩

/-! ## Theorems -/

/-- `ratDiv` is the field division of `ℚ` (so `pyDiv` is exact true
division). -/
theorem ratDiv_eq_div (a b : ℚ) : ratDiv a b = a / b := by
  rcases eq_or_ne b 0 with rfl | hb
  · simp [ratDiv]
  · have hbden : (b.den : ℚ) ≠ 0 := by
      exact_mod_cast Nat.cast_ne_zero.mpr b.den_nz
    have haden : (a.den : ℚ) ≠ 0 := by
      exact_mod_cast Nat.cast_ne_zero.mpr a.den_nz
    have ha' : (a.num : ℚ) = a * (a.den : ℚ) :=
      (div_eq_iff haden).mp (Rat.num_div_den a)
    have hb' : (b.num : ℚ) = b * (b.den : ℚ) :=
      (div_eq_iff hbden).mp (Rat.num_div_den b)
    unfold ratDiv
    rcases le_or_lt 0 b.num with h | h
    · have hd : ((b.num.natAbs : ℕ) : ℚ) = (b.num : ℚ) := by
        have hz : ((b.num.natAbs : ℤ)) = b.num := Int.natAbs_of_nonneg h
        rw [← hz]
        norm_cast
        rw [Int.cast_natAbs, Int.cast_abs]
      have hnz : (a.den : ℚ) * (b.num : ℚ) ≠ 0 := by
        rw [hb']
        exact mul_ne_zero haden (mul_ne_zero hb hbden)
      simp only [if_pos h]
      rw [Rat.mkRat_eq_div, Int.cast_mul, Nat.cast_mul, hd, Int.cast_natCast,
        div_eq_div_iff hnz hb]
      rw [ha', hb']
      ring
    · have hd : ((b.num.natAbs : ℕ) : ℚ) = -(b.num : ℚ) := by
        have hz : ((b.num.natAbs : ℤ)) = -b.num := Int.ofNat_natAbs_of_nonpos h.le
        rw [show -(b.num : ℚ) = (((-b.num : ℤ)) : ℚ) by push_cast; ring, ← hz]
        norm_cast
        rw [Int.cast_natAbs, Int.cast_abs]
      have hnz : (a.den : ℚ) * -(b.num : ℚ) ≠ 0 := by
        rw [hb']
        exact mul_ne_zero haden (neg_ne_zero.mpr (mul_ne_zero hb hbden))
      simp only [if_neg (not_le.mpr h)]
      rw [Rat.mkRat_eq_div, Int.cast_neg, Int.cast_mul, Nat.cast_mul, hd, Int.cast_natCast,
        div_eq_div_iff hnz hb]
      rw [ha', hb']
      ring

/-- C1: the claim says the scope `execute_for`/`execute_if` push is popped
exactly once in every outcome, so the stack depth after the construct equals
the depth before it.  Evaluating the code refutes this: from a one-scope
state, a `RETURN` signal or a hard error raised in a `FOR` body — and a hard
error raised in a taken `IF` branch — escapes before the pop (there is no
`try`/`finally`), leaving the stack two deep. -/
theorem c1_for_if_scope_leak :
    c1St.stack.length = 1 ∧
    outcomeOf (execFor 30 none "1" "3" "1" [.ret "x"] c1St)
      = some (.error (.funcRet (.num (.int 1)))) ∧
    depthOf (execFor 30 none "1" "3" "1" [.ret "x"] c1St) = some 2 ∧
    (∃ m, outcomeOf (execFor 30 none "1" "3" "1" [.priPrint "nope"] c1St)
      = some (.error (.interp (some 1) m))) ∧
    depthOf (execFor 30 none "1" "3" "1" [.priPrint "nope"] c1St) = some 2 ∧
    (∃ m, outcomeOf (execIf 30 ⟨"1", .gt, "0"⟩ [.priPrint "nope"] [] c1St)
      = some (.error (.interp (some 1) m))) ∧
    depthOf (execIf 30 ⟨"1", .gt, "0"⟩ [.priPrint "nope"] [] c1St) = some 2 :=
  ⟨rfl, rfl, rfl, ⟨_, rfl⟩, rfl, ⟨_, rfl⟩, rfl⟩

/-- C2: the claim says a fresh array's slots hold an empty sentinel and an
unwritten slot is a hard `no value` error on `get_data`.  Evaluating the
code refutes this: `execute_array_create` fills the slots with the integer
`0`, and `get_data` on an unwritten slot succeeds, storing `0` into an
`auto` destination; only the out-of-bounds half of the claim holds. -/
theorem c2_array_empty_sentinel :
    executeArrCreate baseSt "a" 3 = .ok c2StA ∧
    c2StA.arrHeap = [[.num (.int 0), .num (.int 0), .num (.int 0)]] ∧
    okVar (executeArrGetData c2StA "a" 1 "y") "y" = some ⟨"auto", "y", .num (.int 0)⟩ ∧
    errOf (executeArrGetData c2StA "a" 1 "y") = none ∧
    (∃ m, executeArrGetData c2StA "a" 3 "y" = .error (.interp none m)) :=
  ⟨rfl, rfl, rfl, rfl, ⟨_, rfl⟩⟩

/-- C3: the claim says a return signal inside a `WHILE` body pops the one
loop scope exactly once, leaving the stack at its pre-loop depth.
Evaluating the code refutes this: the `except FunctionReturn` branch pops
and re-raises, and the `finally` pops a second time, so from a two-scope
state the stack is one deep (not two) when the signal propagates. -/
theorem c3_while_return_double_pop :
    c3St.stack.length = 2 ∧
    outcomeOf (execWhile 30 ⟨"1", .gt, "0"⟩ [.ret "x"] c3St)
      = some (.error (.funcRet (.num (.int 7)))) ∧
    depthOf (execWhile 30 ⟨"1", .gt, "0"⟩ [.ret "x"] c3St) = some 1 :=
  ⟨rfl, rfl, rfl⟩

/-- C4: the claim says a parameter copy never aliases the caller's
variable, so mutating an element of an array-typed parameter leaves the
caller's array unchanged.  Evaluating the code refutes this:
`Variable(var.type, param, var.value)` shares the backing list, so after
calling `f` (which writes `99` into slot 0 of its parameter) the caller's
array `a` — untouched by name — now holds `99`. -/
theorem c4_array_param_aliases_caller :
    c4St.arrHeap = [[.num (.int 0)]] ∧
    outcomeOf (execDefCall 30 "f" ["a"] "s" none none c4St) = some (.ok ()) ∧
    arrsOf (execDefCall 30 "f" ["a"] "s" none none c4St) = some [[.num (.int 99)]] ∧
    varOf (execDefCall 30 "f" ["a"] "s" none none c4St) "a"
      = some (some ⟨"array", "a", .arr 0⟩) ∧
    depthOf (execDefCall 30 "f" ["a"] "s" none none c4St) = some 1 :=
  ⟨rfl, rfl, rfl, rfl, rfl⟩

/-- C5 (counterexample): a successful `LOAD` of a module whose body assigns
to the caller-visible name `c` — which is not a `--save` destination —
changes the caller's `c` from `3` to `10`, refuting the claim's "no caller
variable other than the `--save` destinations is modified". -/
theorem c5_module_body_touches_caller :
    c5St.getVar "c" = some ⟨"int", "c", .num (.int 3)⟩ ∧
    ¬ ("c" ∈ (["out"] : List String)) ∧
    outcomeOf (execLoad 30 c5cd ["a"] ["out"] c5St) = some (.ok ()) ∧
    varOf (execLoad 30 c5cd ["a"] ["out"] c5St) "c"
      = some (some ⟨"int", "c", .num (.int 10)⟩) ∧
    varOf (execLoad 30 c5cd ["a"] ["out"] c5St) "out"
      = some (some ⟨"int", "out", .num (.int 1)⟩) :=
  ⟨rfl, by decide, rfl, rfl, rfl⟩

/-- Binding a success in the `Except` monad applies the continuation. -/
theorem exceptBind_ok {ε α β : Type} (a : α) (f : α → Except ε β) :
    ((Except.ok a : Except ε α) >>= f) = f a := rfl

/-- Binding a failure in the `Except` monad propagates it. -/
theorem exceptBind_err {ε α β : Type} (e : ε) (f : α → Except ε β) :
    ((Except.error e : Except ε α) >>= f) = Except.error e := rfl

/-- A name with `numVal st n = some p` passes `_get_numeric_value` with the
number `p`. -/
theorem numVal_getNumeric {st : State} {n : String} {p : PyNum}
    (h : numVal st n = some p) (cmd : String) :
    getNumericValue st n cmd = .ok (.num p) := by
  unfold numVal at h
  cases hv : st.getVar n with
  | none => rw [hv] at h; cases h
  | some v =>
    rw [hv] at h
    simp only [getNumericValue, hv]
    by_cases ht : v.type = "int" ∨ v.type = "float"
    · simp only [if_pos ht] at h ⊢
      cases hvv : v.value with
      | num p' =>
        rw [hvv] at h
        rw [Option.some.inj h]
      | str s => rw [hvv] at h; cases h
      | arr r => rw [hvv] at h; cases h
      | pynone => rw [hvv] at h; cases h
    · simp [if_neg ht] at h

/-- `execute_divide`'s divisor loop hits the zero check as soon as some
divisor is zero, for any numeric accumulator. -/
theorem divFold_zero (st : State) (l : List String)
    (hall : ∀ n ∈ l, (numVal st n).isSome)
    (hz : ∃ n ∈ l, (nv st n).toRat = 0) :
    ∀ a : PyNum, divFold st l (.num a) = .error (.interp none "Error: Division by zero") := by
  induction l with
  | nil => obtain ⟨n, hn, _⟩ := hz; cases hn
  | cons m ms ih =>
    intro a
    obtain ⟨p0, hp0⟩ := Option.isSome_iff_exists.mp (hall m (List.mem_cons_self m ms))
    have hg := numVal_getNumeric hp0 "DIVIDE"
    by_cases h0 : p0.toRat = 0
    · simp only [divFold, hg, exceptBind_ok]
      simp [valueEqZero, h0]
    · have hz' : ∃ n ∈ ms, (nv st n).toRat = 0 := by
        obtain ⟨n, hn, hzz⟩ := hz
        rcases List.mem_cons.mp hn with rfl | hmem
        · exact absurd (by rw [nv, hp0] at hzz; exact hzz) h0
        · exact ⟨n, hmem, hzz⟩
      have hrec := ih (fun n hn => hall n (List.mem_cons_of_mem _ hn)) hz' (pyDiv a p0)
      simp only [divFold, hg, exceptBind_ok]
      simp only [valueEqZero]
      rw [if_neg (by simp [h0])]
      simp only [pyDivValue, exceptBind_ok]
      exact hrec

/-- C6: every `DIVIDE` whose inputs all resolve to numeric variables and
whose divisor list (the inputs after the first) contains a zero value fails
with the division-by-zero error — regardless of the other operands — and no
state is produced, so the output variable is not assigned. -/
theorem c6_divide_zero_divisor_fails (st : State) (inputs : List String) (output : String)
    (h2 : 2 ≤ inputs.length) (hout : output ≠ "")
    (hall : ∀ n ∈ inputs, (numVal st n).isSome)
    (hz : ∃ n ∈ inputs.tail, (nv st n).toRat = 0) :
    executeDivide st inputs output = .error (.interp none "Error: Division by zero") := by
  cases inputs with
  | nil => simp at h2
  | cons i0 rest =>
    obtain ⟨p0, hp0⟩ := Option.isSome_iff_exists.mp (hall i0 (List.mem_cons_self i0 rest))
    have hg := numVal_getNumeric hp0 "DIVIDE"
    unfold executeDivide
    rw [if_neg (by simp [hout]), if_neg (by omega)]
    simp only [hg, exceptBind_ok]
    rw [divFold_zero st rest (fun n hn => hall n (List.mem_cons_of_mem _ hn)) hz p0,
      exceptBind_err]

/-- The hypotheses of `c6_divide_zero_divisor_fails` hold at `DIVIDE` with
inputs `x = 6` and `y = 0` and output `q`, and the call fails with the
division-by-zero error. -/
theorem c6_witness :
    (2 ≤ (["x", "y"] : List String).length) ∧
    executeDivide c6St ["x", "y"] "q" = .error (.interp none "Error: Division by zero") :=
  ⟨by decide,
   c6_divide_zero_divisor_fails c6St ["x", "y"] "q" (by decide) (by decide)
     (by decide) ⟨"y", by decide, by decide⟩⟩

/-- `ratAdd` is the addition of `ℚ`. -/
theorem ratAdd_eq_add (a b : ℚ) : ratAdd a b = a + b := by
  have hbden : (b.den : ℚ) ≠ 0 := by
    exact_mod_cast Nat.cast_ne_zero.mpr b.den_nz
  have haden : (a.den : ℚ) ≠ 0 := by
    exact_mod_cast Nat.cast_ne_zero.mpr a.den_nz
  have ha' : (a.num : ℚ) = a * (a.den : ℚ) :=
    (div_eq_iff haden).mp (Rat.num_div_den a)
  have hb' : (b.num : ℚ) = b * (b.den : ℚ) :=
    (div_eq_iff hbden).mp (Rat.num_div_den b)
  unfold ratAdd
  rw [Rat.mkRat_eq_div]
  push_cast
  rw [ha', hb', div_eq_iff (mul_ne_zero haden hbden)]
  ring

/-- `ratSub` is the subtraction of `ℚ`. -/
theorem ratSub_eq_sub (a b : ℚ) : ratSub a b = a - b := by
  have hbden : (b.den : ℚ) ≠ 0 := by
    exact_mod_cast Nat.cast_ne_zero.mpr b.den_nz
  have haden : (a.den : ℚ) ≠ 0 := by
    exact_mod_cast Nat.cast_ne_zero.mpr a.den_nz
  have ha' : (a.num : ℚ) = a * (a.den : ℚ) :=
    (div_eq_iff haden).mp (Rat.num_div_den a)
  have hb' : (b.num : ℚ) = b * (b.den : ℚ) :=
    (div_eq_iff hbden).mp (Rat.num_div_den b)
  unfold ratSub
  rw [Rat.mkRat_eq_div]
  push_cast
  rw [ha', hb', div_eq_iff (mul_ne_zero haden hbden)]
  ring

/-- `ratMul` is the multiplication of `ℚ`. -/
theorem ratMul_eq_mul (a b : ℚ) : ratMul a b = a * b := by
  have hbden : (b.den : ℚ) ≠ 0 := by
    exact_mod_cast Nat.cast_ne_zero.mpr b.den_nz
  have haden : (a.den : ℚ) ≠ 0 := by
    exact_mod_cast Nat.cast_ne_zero.mpr a.den_nz
  have ha' : (a.num : ℚ) = a * (a.den : ℚ) :=
    (div_eq_iff haden).mp (Rat.num_div_den a)
  have hb' : (b.num : ℚ) = b * (b.den : ℚ) :=
    (div_eq_iff hbden).mp (Rat.num_div_den b)
  unfold ratMul
  rw [Rat.mkRat_eq_div]
  push_cast
  rw [ha', hb', div_eq_iff (mul_ne_zero haden hbden)]
  ring

/-- `roundB64` touchstone: `10^16` is exactly representable (its odd part
`5^16` fits in 53 bits) and is a fixpoint. -/
theorem roundB64_fix_1e16 :
    roundB64 ((10000000000000000 : ℤ) : ℚ) = ((10000000000000000 : ℤ) : ℚ) := by
  decide

/-- `roundB64` touchstone: `10^16 + 1` lies exactly halfway between the
representable neighbours `10^16` and `10^16 + 2` and the tie goes to the
even significand, i.e. down to `10^16` — the classic absorption
`1e16 + 1.0 == 1e16`. -/
theorem roundB64_tie_1e16 :
    roundB64 ((10000000000000001 : ℤ) : ℚ) = ((10000000000000000 : ℤ) : ℚ) := by
  decide

/-- `roundB64` touchstone: `2/5` rounds to the binary64 value of `0.4`,
`3602879701896397 / 2^53`. -/
theorem roundB64_two_fifths :
    roundB64 (mkRat 2 5) = mkRat 3602879701896397 9007199254740992 := by
  decide

/-- A name with `intVal st n = some k` resolves to an `int`-valued numeric
variable. -/
theorem intVal_numVal {st : State} {n : String} {k : ℤ} (h : intVal st n = some k) :
    numVal st n = some (.int k) := by
  unfold intVal at h
  cases hn : numVal st n with
  | none => rw [hn] at h; cases h
  | some p =>
    rw [hn] at h
    cases p with
    | int j => rw [Option.some.inj h]
    | float q => cases h

/-- `execute_sum`'s loop over all-integer inputs is the exact integer sum
(the `int + int` branch of Python `+` — no rounding). -/
theorem sumFoldInt_char (st : State) (l : List String)
    (h : ∀ n ∈ l, (intVal st n).isSome) :
    ∀ a : ℤ, sumFold st l (.num (.int a)) = .ok (.num (.int (a + intSumL st l))) := by
  induction l with
  | nil =>
    intro a
    simp [sumFold, intSumL]
  | cons n ns ih =>
    intro a
    obtain ⟨k, hk⟩ := Option.isSome_iff_exists.mp (h n (List.mem_cons_self n ns))
    have hg := numVal_getNumeric (intVal_numVal hk) "SUM"
    have hrec := ih (fun m hm => h m (List.mem_cons_of_mem _ hm)) (a + k)
    simp only [sumFold, hg, exceptBind_ok, pyAddValue, pyAdd]
    rw [hrec]
    have he : a + k + intSumL st ns = a + intSumL st (n :: ns) := by
      simp [intSumL, hk]
      ring
    rw [he]

/-- `execute_multiply`'s loop over all-integer inputs is the exact integer
product. -/
theorem mulFoldInt_char (st : State) (l : List String)
    (h : ∀ n ∈ l, (intVal st n).isSome) :
    ∀ a : ℤ, mulFold st l (.num (.int a)) = .ok (.num (.int (a * intProdL st l))) := by
  induction l with
  | nil =>
    intro a
    simp [mulFold, intProdL]
  | cons n ns ih =>
    intro a
    obtain ⟨k, hk⟩ := Option.isSome_iff_exists.mp (h n (List.mem_cons_self n ns))
    have hg := numVal_getNumeric (intVal_numVal hk) "MULTIPLY"
    have hrec := ih (fun m hm => h m (List.mem_cons_of_mem _ hm)) (a * k)
    simp only [mulFold, hg, exceptBind_ok, pyMulValue, pyMul]
    rw [hrec]
    have he : a * k * intProdL st ns = a * intProdL st (n :: ns) := by
      simp [intProdL, hk]
      ring
    rw [he]

/-- The exact sum of all-integer inputs is invariant under permutation. -/
theorem intSumL_perm (st : State) {l l' : List String} (h : l.Perm l') :
    intSumL st l = intSumL st l' :=
  List.Perm.sum_eq (h.map _)

/-- The exact product of all-integer inputs is invariant under
permutation. -/
theorem intProdL_perm (st : State) {l l' : List String} (h : l.Perm l') :
    intProdL st l = intProdL st l' :=
  List.Perm.prod_eq (h.map _)

/-- `execute_sum` is invariant under any reordering of input names that
all resolve to `int`-valued numeric variables (Python ints are exact). -/
theorem executeSumInt_perm (st : State) (l l' : List String) (out : String)
    (hp : l.Perm l') (h : ∀ n ∈ l, (intVal st n).isSome) :
    executeSum st l out = executeSum st l' out := by
  have hlen := hp.length_eq
  have h' : ∀ n ∈ l', (intVal st n).isSome := fun n hn => h n (hp.mem_iff.mpr hn)
  by_cases h0 : l = []
  · subst h0
    rw [hp.symm.eq_nil]
  · have h0' : l' ≠ [] := fun he => h0 (List.Perm.eq_nil (he ▸ hp))
    by_cases hout : out = ""
    · have redl : executeSum st l out
          = .error (.interp none "Error: SUM command requires --input(s) and --output") := by
        unfold executeSum
        rw [if_pos (Or.inr hout)]
      have redr : executeSum st l' out
          = .error (.interp none "Error: SUM command requires --input(s) and --output") := by
        unfold executeSum
        rw [if_pos (Or.inr hout)]
      rw [redl, redr]
    · by_cases h2 : l.length < 2
      · have redl : executeSum st l out
            = .error (.interp none "Error: SUM command requires at least two --input arguments") := by
          unfold executeSum
          rw [if_neg (by simp [h0, hout]), if_pos h2]
        have redr : executeSum st l' out
            = .error (.interp none "Error: SUM command requires at least two --input arguments") := by
          unfold executeSum
          rw [if_neg (by simp [h0', hout]), if_pos (hlen ▸ h2)]
        rw [redl, redr]
      · have redl : executeSum st l out
            = (sumFold st l (.num (.int 0)) >>= fun total => assignOutput st out total "SUM") := by
          unfold executeSum
          rw [if_neg (by simp [h0, hout]), if_neg h2]
        have redr : executeSum st l' out
            = (sumFold st l' (.num (.int 0)) >>= fun total => assignOutput st out total "SUM") := by
          unfold executeSum
          rw [if_neg (by simp [h0', hout]), if_neg (hlen ▸ h2)]
        rw [redl, redr, sumFoldInt_char st l h 0, sumFoldInt_char st l' h' 0,
          intSumL_perm st hp]

/-- `execute_multiply` is invariant under any reordering of input names
that all resolve to `int`-valued numeric variables. -/
theorem executeMultiplyInt_perm (st : State) (l l' : List String) (out : String)
    (hp : l.Perm l') (h : ∀ n ∈ l, (intVal st n).isSome) :
    executeMultiply st l out = executeMultiply st l' out := by
  have hlen := hp.length_eq
  have h' : ∀ n ∈ l', (intVal st n).isSome := fun n hn => h n (hp.mem_iff.mpr hn)
  by_cases h0 : l = []
  · subst h0
    rw [hp.symm.eq_nil]
  · have h0' : l' ≠ [] := fun he => h0 (List.Perm.eq_nil (he ▸ hp))
    by_cases hout : out = ""
    · have redl : executeMultiply st l out
          = .error (.interp none "Error: MULTIPLY command requires --input(s) and --output") := by
        unfold executeMultiply
        rw [if_pos (Or.inr hout)]
      have redr : executeMultiply st l' out
          = .error (.interp none "Error: MULTIPLY command requires --input(s) and --output") := by
        unfold executeMultiply
        rw [if_pos (Or.inr hout)]
      rw [redl, redr]
    · by_cases h2 : l.length < 2
      · have redl : executeMultiply st l out
            = .error (.interp none "Error: MULTIPLY command requires at least two --input arguments") := by
          unfold executeMultiply
          rw [if_neg (by simp [h0, hout]), if_pos h2]
        have redr : executeMultiply st l' out
            = .error (.interp none "Error: MULTIPLY command requires at least two --input arguments") := by
          unfold executeMultiply
          rw [if_neg (by simp [h0', hout]), if_pos (hlen ▸ h2)]
        rw [redl, redr]
      · have redl : executeMultiply st l out
            = (mulFold st l (.num (.int 1)) >>= fun total => assignOutput st out total "MULTIPLY") := by
          unfold executeMultiply
          rw [if_neg (by simp [h0, hout]), if_neg h2]
        have redr : executeMultiply st l' out
            = (mulFold st l' (.num (.int 1)) >>= fun total => assignOutput st out total "MULTIPLY") := by
          unfold executeMultiply
          rw [if_neg (by simp [h0', hout]), if_neg (hlen ▸ h2)]
        rw [redl, redr, mulFoldInt_char st l h 1, mulFoldInt_char st l' h' 1,
          intProdL_perm st hp]

/-- C8 (counterexample): the claimed reorder-invariance of `SUM` fails on
float inputs because every fold step rounds to binary64.  With
`x = 1e16`, `y = 1.0`, `z = -1e16` (all numeric-resolving), the order
`x, y, z` absorbs the `1.0` (`fl(1e16 + 1) = 1e16`, a round-to-even tie)
and assigns `0`, while the permutation `x, z, y` assigns `1`. -/
theorem c8_float_sum_reorder :
    (["x", "y", "z"] : List String).Perm ["x", "z", "y"] ∧
    (∀ n ∈ (["x", "y", "z"] : List String), (numVal c8FSt n).isSome) ∧
    okVar (executeSum c8FSt ["x", "y", "z"] "o") "o" = some ⟨"int", "o", .num (.int 0)⟩ ∧
    okVar (executeSum c8FSt ["x", "z", "y"] "o") "o" = some ⟨"int", "o", .num (.int 1)⟩ ∧
    okVar (executeSum c8FSt ["x", "y", "z"] "o") "o"
      ≠ okVar (executeSum c8FSt ["x", "z", "y"] "o") "o" :=
  ⟨List.Perm.cons "x" (List.Perm.swap "z" "y" []), by decide, rfl, rfl, by decide⟩

/-- C8 (amended): `SUM` and `MULTIPLY` assign a value invariant under any
reordering of their input lists when every input resolves to an
`int`-valued numeric variable (exact arbitrary-precision arithmetic);
with float inputs each fold step rounds to binary64 and reordering can
change the result (see the counterexample).  `SUBTRACT` and `DIVIDE` are
left-to-right folds from the first input: with `a = 5` and `b = 2`,
swapping the inputs changes the assigned output. -/
theorem c8_int_sum_multiply_commute_subtract_divide_ordered :
    (∀ (st : State) (l l' : List String) (out : String),
        l.Perm l' → (∀ n ∈ l, (intVal st n).isSome) →
        executeSum st l out = executeSum st l' out) ∧
    (∀ (st : State) (l l' : List String) (out : String),
        l.Perm l' → (∀ n ∈ l, (intVal st n).isSome) →
        executeMultiply st l out = executeMultiply st l' out) ∧
    okVar (executeSubtract c8St ["a", "b"] "o") "o"
      ≠ okVar (executeSubtract c8St ["b", "a"] "o") "o" ∧
    okVar (executeDivide c8St ["a", "b"] "o") "o"
      ≠ okVar (executeDivide c8St ["b", "a"] "o") "o" :=
  ⟨executeSumInt_perm, executeMultiplyInt_perm, by decide, by decide⟩

/-- `self.variables.pop()` can only fail with the `IndexError`. -/
theorem popScope_error_shape {st : State} {e : Exc} (h : st.popScope = .error e) :
    e = .fault "IndexError: pop from empty list" := by
  unfold State.popScope at h
  split at h
  · exact (Except.error.inj h).symm
  · cases h

/-- The save step of `execute_def_call` with no captured return value: an
`UnboundLocalError` at the read of `return_value`, except when the existing
destination has a non-scalar type, where the (untagged) unsupported-type
`InterpreterError` fires first. -/
theorem defCallSave_none_shape (st : State) (save : String) (hsave : save ≠ "") :
    defCallSave st save none
      = (.error (.fault "UnboundLocalError: local variable return_value referenced before assignment"), st)
    ∨ ∃ m, defCallSave st save none = (.error (.interp none m), st) := by
  unfold defCallSave
  rw [if_neg hsave]
  cases hv : st.getVar save with
  | none => left; rfl
  | some ov =>
    by_cases ht : ov.type = "int" ∨ ov.type = "float" ∨ ov.type = "str" ∨ ov.type = "auto"
    · left
      simp only [if_pos ht]
    · right
      exact ⟨"Error: Unsupported type " ++ ov.type ++ " for saving function return value",
        by simp only [if_neg ht]; rfl⟩

/-- C10: a `DEF --call` whose body completes without ever raising a return
signal does not complete normally, and the failure is not a line-tagged
`InterpreterError`: the save step reads the never-assigned `return_value`
and raises `UnboundLocalError` (or, for a non-scalar existing destination,
an untagged unsupported-type `InterpreterError`). -/
theorem c10_missing_return_not_error_channel
    (fuel : Nat) (st st1 : State) (f : Function)
    (callName : String) (inputs : List String) (save : String) (sc : VarScope)
    (hsave : save ≠ "")
    (hf : lookupFunction st none callName = some f)
    (hlen : inputs.length = f.parameters.length)
    (hsc : buildLocalScope st st.stack (f.parameters.zip inputs) [] = .ok sc)
    (hbody : run fuel (.stmts f.code 0 true none none) (st.pushScope sc) = some (.ok (), st1)) :
    ∃ st2 out, execDefCall (fuel + 1) callName inputs save none none st = some (out, st2) ∧
      out ≠ .ok () ∧ ∀ ln m, out = .error (.interp ln m) → ln = none := by
  have hred : execDefCall (fuel + 1) callName inputs save none none st
      = (match st1.popScope with
         | .error e => some (.error e, st1)
         | .ok st3 => some (defCallSave st3 save none)) := by
    show run (Nat.succ fuel) (.defCallReq callName inputs save none none) st = _
    simp only [run, hf, hlen, ne_eq, not_true_eq_false, if_false, hsc, hbody]
  cases hpop : st1.popScope with
  | error e =>
    refine ⟨st1, .error e, ?_, by simp, ?_⟩
    · rw [hred, hpop]
    · intro ln m hm
      rw [popScope_error_shape hpop] at hm
      simp at hm
  | ok st3 =>
    rcases defCallSave_none_shape st3 save hsave with hshape | ⟨m, hshape⟩
    · refine ⟨st3,
        .error (.fault "UnboundLocalError: local variable return_value referenced before assignment"),
        ?_, by simp, ?_⟩
      · simp only [hred, hpop, hshape]
      · intro ln m hm
        simp at hm
    · refine ⟨st3, .error (.interp none m), ?_, by simp, ?_⟩
      · simp only [hred, hpop, hshape]
      · intro ln m' hm
        injection Except.error.inj hm with h1 h2
        exact h1.symm

/-- The hypotheses of `c10_missing_return_not_error_channel` hold at the
registered zero-parameter, empty-body function `f0` called from `c10St`
with a fresh save name, and the call's failure escapes the error channel. -/
theorem c10_witness :
    ("s" : String) ≠ "" ∧
    lookupFunction c10St none "f0" = some c10F ∧
    buildLocalScope c10St c10St.stack (c10F.parameters.zip []) [] = .ok [] ∧
    run 9 (.stmts c10F.code 0 true none none) (c10St.pushScope []) = some (.ok (), c10St.pushScope []) ∧
    (∃ st2 out, execDefCall 10 "f0" [] "s" none none c10St = some (out, st2) ∧
      out ≠ .ok () ∧ ∀ ln m, out = .error (.interp ln m) → ln = none) :=
  ⟨by decide, rfl, rfl, rfl,
   c10_missing_return_not_error_channel 9 c10St (c10St.pushScope []) c10F "f0" [] "s" []
     (by decide) rfl rfl rfl rfl⟩

/-- C9: `execute_var` rejects every `--type` whose lowercasing is not
`int`, `float` or `str` — in particular the data model's `array` and `auto`
types — with the hard `Unsupported type` error, producing no state (no
variable is created); `array`-typed and `auto`-typed variables do arise from
`ARR --create` and `ARR --get_data` respectively. -/
theorem c9_var_unsupported_type :
    (∀ (st : State) (ty name : String) (setv : Option String),
        ty ≠ "" → name ≠ "" →
        strLower ty ≠ "int" → strLower ty ≠ "float" → strLower ty ≠ "str" →
        executeVar st ty name setv = .error (.interp none s!"Error: Unsupported type {ty}")) ∧
    okVar (executeArrCreate baseSt "a" 3) "a" = some ⟨"array", "a", .arr 0⟩ ∧
    okVar (executeArrGetData c9GetSt "a" 0 "y") "y" = some ⟨"auto", "y", .num (.int 4)⟩ := by
  refine ⟨?_, rfl, rfl⟩
  intro st ty name setv h1 h2 h3 h4 h5
  unfold executeVar
  rw [if_neg (by simp [h1, h2]), if_neg h3, if_neg h4, if_neg h5]

/-- If `LOAD`'s input binding succeeds, every named caller variable exists
and its declared type equals the declared input type. -/
theorem buildClassScope_ok_match (st : State) (l : List ((String × String) × String))
    (sc0 sc : VarScope) (h : buildClassScope st l sc0 = .ok sc) :
    ∀ p ∈ l, ∃ v, st.getVar p.2 = some v ∧ v.type = p.1.1 := by
  induction l generalizing sc0 with
  | nil => intro p hp; cases hp
  | cons q rest ih =>
    obtain ⟨⟨ty, vn⟩, inName⟩ := q
    intro p hp
    simp only [buildClassScope] at h
    cases hv : st.getVar inName with
    | none => simp [hv] at h
    | some v =>
      by_cases hty : v.type ≠ ty
      · simp [hv, hty] at h
      · push_neg at hty
        simp only [hv, hty, ne_eq, not_true_eq_false, if_false] at h
        rcases List.mem_cons.mp hp with rfl | hmem
        · exact ⟨v, hv, hty⟩
        · exact ih _ h p hmem

/-- A failure of `LOAD`'s input binding is an untagged `InterpreterError`. -/
theorem buildClassScope_error_shape (st : State) (l : List ((String × String) × String))
    (sc0 : VarScope) (e : Exc) (h : buildClassScope st l sc0 = .error e) :
    ∃ m, e = .interp none m := by
  induction l generalizing sc0 with
  | nil => cases h
  | cons q rest ih =>
    obtain ⟨⟨ty, vn⟩, inName⟩ := q
    simp only [buildClassScope] at h
    cases hv : st.getVar inName with
    | none =>
      rw [hv] at h
      exact ⟨_, (Except.error.inj h).symm⟩
    | some v =>
      by_cases hty : v.type ≠ ty
      · simp only [hv, if_pos hty] at h
        exact ⟨_, (Except.error.inj h).symm⟩
      · push_neg at hty
        simp only [hv, hty, ne_eq, not_true_eq_false, if_false] at h
        exact ih _ h

/-- C5 (amended): when the argument count matches but some caller argument
variable's declared type differs from the declared input type, `LOAD` fails
with an (untagged) `InterpreterError` and the state is unchanged — no
library or body statement has run; on success, each declared output's value
is written into its `--save` destination (creating it with the output's
declared type when absent), shown on the two-input one-output module
`c5cd2`, whose load leaves the bystanders `z`, `a`, `b` unchanged and the
stack at its original depth; the concrete mismatch `c5St3` (`a` declared
`float`) fails with the state unchanged. -/
theorem c5_load_amended :
    (∀ (fuel : Nat) (cd : ClassDef) (ins saves : List String) (st : State),
        ins.length = cd.inputs.length →
        (∃ pr ∈ cd.inputs.zip ins, ∃ v, st.getVar pr.2 = some v ∧ v.type ≠ pr.1.1) →
        ∃ m, execLoad (fuel + 1) cd ins saves st = some (.error (.interp none m), st)) ∧
    outcomeOf (execLoad 30 c5cd2 ["a", "b"] ["res"] c5St2) = some (.ok ()) ∧
    varOf (execLoad 30 c5cd2 ["a", "b"] ["res"] c5St2) "res"
      = some (some ⟨"int", "res", .num (.int 10)⟩) ∧
    varOf (execLoad 30 c5cd2 ["a", "b"] ["res"] c5St2) "z"
      = some (some ⟨"int", "z", .num (.int 99)⟩) ∧
    varOf (execLoad 30 c5cd2 ["a", "b"] ["res"] c5St2) "a"
      = some (some ⟨"int", "a", .num (.int 7)⟩) ∧
    varOf (execLoad 30 c5cd2 ["a", "b"] ["res"] c5St2) "b"
      = some (some ⟨"int", "b", .num (.int 3)⟩) ∧
    depthOf (execLoad 30 c5cd2 ["a", "b"] ["res"] c5St2) = some 1 ∧
    (∃ m, execLoad 30 c5cd2 ["a", "b"] ["res"] c5St3 = some (.error (.interp none m), c5St3)) := by
  refine ⟨?_, rfl, rfl, rfl, rfl, rfl, rfl, ⟨_, rfl⟩⟩
  intro fuel cd ins saves st hlen hmm
  cases hres : buildClassScope st (cd.inputs.zip ins) [] with
  | ok sc =>
    exfalso
    obtain ⟨pr, hpr, v, hv, hne⟩ := hmm
    obtain ⟨v', hv', ht⟩ := buildClassScope_ok_match st _ _ _ hres pr hpr
    rw [hv] at hv'
    exact hne ((Option.some.inj hv') ▸ ht)
  | error e =>
    obtain ⟨m, rfl⟩ := buildClassScope_error_shape st _ _ _ hres
    refine ⟨m, ?_⟩
    show run (Nat.succ fuel) (.loadReq cd ins saves) st = _
    simp only [run, hlen, ne_eq, not_true_eq_false, if_false, hres]

/-- C7: a `FOR` with literal `start=1, end=5, step=1` runs its body exactly
five times with the loop variable at `1,2,3,4,5` in order (each body run is
one `PRI --print i` trace entry), and with `start=5, end=1, step=-1` at
`5,4,3,2,1`; both loops complete normally with the loop scope popped. -/
theorem c7_for_literal_bounds :
    outcomeOf (execFor 40 (some "i") "1" "5" "1" [.priPrint "i"] baseSt) = some (.ok ()) ∧
    traceOf (execFor 40 (some "i") "1" "5" "1" [.priPrint "i"] baseSt) = some c7TraceUp ∧
    depthOf (execFor 40 (some "i") "1" "5" "1" [.priPrint "i"] baseSt) = some 1 ∧
    outcomeOf (execFor 40 (some "i") "5" "1" "-1" [.priPrint "i"] baseSt) = some (.ok ()) ∧
    traceOf (execFor 40 (some "i") "5" "1" "-1" [.priPrint "i"] baseSt) = some c7TraceDown ∧
    depthOf (execFor 40 (some "i") "5" "1" "-1" [.priPrint "i"] baseSt) = some 1 :=
  ⟨rfl, rfl, rfl, rfl, rfl, rfl⟩

end PP
